import Mathlib

/-!
A shallow embedding of the Flask CRUD teaching applications
(flask-database-starter00) in Lean 4, together with theorems checking the
specification's claims against the embedded code.

The repository has four independent single-file applications:
* part-1: raw-SQL student roster (only an index page and a fixed sample
  insert; no id-based or unique-field operations, so no claim touches it),
* part-3: school management (Course / Teacher / Student) over Flask-SQLAlchemy,
* part-4: JSON REST API for a library (Author / Book) with pagination,
  sorting, and search,
* part-6: product inventory with search and aggregate totals.

Modelling conventions:
* Python strings are `List Char`; `str` injects Lean string literals.
* The committed database state is an explicit record of row lists; a
  handler is a pure function from state and request data to a result and
  the new committed state.  `db.session.commit()` points are where the
  returned state changes; handlers that return an error before committing
  return the incoming state unchanged.
* A handler result is `HRes`: either an HTTP response with a status code
  (`resp`), or `exc`, meaning an exception escaped the handler (Flask then
  produces a 500 Internal Server Error; the handler itself handled
  nothing).
* SQLite semantics followed by the embedding: `UNIQUE` and `NOT NULL`
  column constraints are always enforced at commit (a violation raises
  `IntegrityError`, i.e. `exc`); `FOREIGN KEY` constraints are only
  enforced when `PRAGMA foreign_keys=ON`, which none of the applications
  issue, so FK enforcement is a `Bool` parameter of the part-3 operations
  whose real value in this repository is `false`.
* `AUTOINCREMENT` / rowid assignment of a fresh primary key is modelled as
  max existing id + 1.
* SQL `ilike '%x%'` is modelled as SQLite LIKE matching of the pattern
  `'%' ++ x ++ '%'` with both sides case-folded: the applications build
  the pattern by f-string interpolation with no escaping, so the LIKE
  metacharacters `%` (any sequence) and `_` (exactly one character)
  inside the parameter act as wildcards.
* `datetime.utcnow` defaults are modelled by a `now : Nat` parameter.
* JSON `null` values for fields the claims never exercise with `null`
  (e.g. `author_id` in a book update) are not distinguished from absent.
-/

/-- A Python string, as its list of characters. -/
abbrev Str := List Char

/-- Inject a Lean string literal as a `Str`. -/
def str (s : String) : Str := s.data

/-- Python `str.lower()` / the case folding done by SQL `ilike`. -/
def lowerStr (s : Str) : Str := s.map Char.toLower

/-- Whether `n` is an initial segment of `h`. -/
def listStarts : Str → Str → Bool
  | [], _ => true
  | _ :: _, [] => false
  | a :: as, b :: bs => a == b && listStarts as bs

/-- Whether `needle` occurs contiguously inside the second argument. -/
def strSub (needle : Str) : Str → Bool
  | [] => needle.isEmpty
  | b :: bs => listStarts needle (b :: bs) || strSub needle bs

/-- SQLite LIKE matching (case already folded): `%` matches any sequence
of characters, `_` matches exactly one, any other pattern character
matches itself.  (No `ESCAPE` clause is used by the applications.) -/
def likeMatch : Str → Str → Bool
  | [], s => s.isEmpty
  | c :: ps, s =>
    if c = '%' then (s.tails).any (fun t => likeMatch ps t)
    else
      match s with
      | [] => false
      | x :: s2 => (if c = '_' then true else c == x) && likeMatch ps s2

/-- SQL `column ilike '%pat%'` as the applications build it (f-string
interpolation, no escaping): LIKE matching of `'%' ++ pat ++ '%'` with
both sides case-folded, so `%` and `_` inside the parameter act as
wildcards. -/
def strMatchCI (pat s : Str) : Bool :=
  likeMatch ('%' :: (lowerStr pat ++ ['%'])) (lowerStr s)

/-- Written from the spec's words, for comparison with `strMatchCI`:
"case-insensitive substring match" — the lowercased parameter occurs
contiguously in the lowercased field. -/
def substrCI (pat s : Str) : Bool := strSub (lowerStr pat) (lowerStr s)

/-- No LIKE metacharacter occurs in the string. -/
def noMeta (p : Str) : Bool := p.all (fun c => c != '%' && c != '_')

/-- Value of a decimal digit character, `none` for a non-digit. -/
def digitVal (c : Char) : Option Nat :=
  if c.isDigit then some (c.toNat - 48) else none

/-- The numeric value of a non-empty all-digit string, else `none`. -/
def digitsVal (s : Str) : Option Nat :=
  if s.isEmpty then none
  else s.foldl (fun acc c =>
    match acc, digitVal c with
    | some n, some d => some (n * 10 + d)
    | _, _ => none) (some 0)

/-- The numeric value of an all-digit string, `0` when empty. -/
def digitsVal0 (s : Str) : Nat := (digitsVal s).getD 0

/-- Strip leading and trailing whitespace, as Python `int()` / `float()` do. -/
def stripWs (s : Str) : Str :=
  ((s.dropWhile Char.isWhitespace).reverse.dropWhile Char.isWhitespace).reverse

/-- Python `int(s)`: optional sign then digits; `none` models the
`ValueError` raised on any other input (underscore separators not
modelled). -/
def pyInt (s : Str) : Option Int :=
  match stripWs s with
  | '-' :: rest => (digitsVal rest).map (fun n => -(n : Int))
  | '+' :: rest => (digitsVal rest).map (fun n => (n : Int))
  | t => (digitsVal t).map (fun n => (n : Int))

/-- Python `float(s)` on plain decimal notation, as an exact rational;
`none` models the `ValueError` on non-numeric input (exponent notation,
`inf`, `nan` not modelled). -/
def pyFloatCore (t : Str) : Option ℚ :=
  let intPart := t.takeWhile Char.isDigit
  match t.dropWhile Char.isDigit with
  | [] => (digitsVal t).map (fun n => (n : ℚ))
  | '.' :: frac =>
    if frac.all Char.isDigit && !(intPart.isEmpty && frac.isEmpty) then
      some ((digitsVal0 intPart : ℚ) + (digitsVal0 frac : ℚ) / ((10 : ℚ) ^ frac.length))
    else none
  | _ => none

/-- Python `float(s)` with sign and whitespace stripping. -/
def pyFloat (s : Str) : Option ℚ :=
  match stripWs s with
  | '-' :: rest => (pyFloatCore rest).map (fun q => -q)
  | '+' :: rest => pyFloatCore rest
  | t => pyFloatCore t

/-- The outcome of running one request handler: an HTTP response with a
status code and payload, or an exception escaping the handler (which the
framework surfaces as a 500 Internal Server Error). -/
inductive HRes (α : Type) where
  | resp : Nat → α → HRes α
  | exc : HRes α
deriving DecidableEq

/-- The status code of a handler outcome, `none` for an escaped exception. -/
def HRes.code : HRes α → Option Nat
  | .resp s _ => some s
  | .exc => none

/-- The payload of a handler outcome, `none` for an escaped exception. -/
def HRes.body : HRes α → Option α
  | .resp _ b => some b
  | .exc => none

/-- Whether the outcome is a response with a 400-class status code. -/
def is400 : HRes α → Bool
  | .resp s _ => 400 ≤ s && s < 500
  | .exc => false

/-- Insert into a list ordered by `le` (used to model SQL `ORDER BY`). -/
def insertIn (le : α → α → Bool) (x : α) : List α → List α
  | [] => [x]
  | y :: ys => if le x y then x :: y :: ys else y :: insertIn le x ys

/-- Insertion sort by `le` (models SQL `ORDER BY`). -/
def sortIn (le : α → α → Bool) : List α → List α
  | [] => []
  | x :: xs => insertIn le x (sortIn le xs)

theorem insertIn_length (le : α → α → Bool) (x : α) (l : List α) :
    (insertIn le x l).length = l.length + 1 := by
  induction l with
  | nil => rfl
  | cons y ys ih =>
    simp only [insertIn]
    split
    · simp
    · simp [ih]

theorem sortIn_length (le : α → α → Bool) (l : List α) :
    (sortIn le l).length = l.length := by
  induction l with
  | nil => rfl
  | cons x xs ih => simp [sortIn, insertIn_length, ih]

theorem listStarts_iff (n : Str) : ∀ h : Str,
    listStarts n h = true ↔ ∃ t, h = n ++ t := by
  induction n with
  | nil => intro h; simp [listStarts]
  | cons a as ih =>
    intro h
    cases h with
    | nil =>
      simp [listStarts]
    | cons b bs =>
      simp only [listStarts, Bool.and_eq_true, beq_iff_eq, ih, List.cons_append,
        List.cons.injEq]
      constructor
      · rintro ⟨rfl, t, rfl⟩; exact ⟨t, rfl, rfl⟩
      · rintro ⟨t, rfl, rfl⟩; exact ⟨rfl, t, rfl⟩

theorem strSub_iff (n : Str) : ∀ h : Str,
    strSub n h = true ↔ ∃ l r, h = l ++ n ++ r := by
  intro h
  induction h with
  | nil =>
    simp only [strSub, List.isEmpty_iff]
    constructor
    · rintro rfl; exact ⟨[], [], rfl⟩
    · rintro ⟨l, r, hn⟩
      cases l with
      | cons x xs => simp at hn
      | nil =>
        cases n with
        | nil => rfl
        | cons y ys => simp at hn
  | cons b bs ih =>
    simp only [strSub, Bool.or_eq_true, listStarts_iff, ih]
    constructor
    · rintro (⟨t, ht⟩ | ⟨l, r, hr⟩)
      · exact ⟨[], t, by simp [ht]⟩
      · exact ⟨b :: l, r, by simp [hr]⟩
    · rintro ⟨l, r, hl⟩
      cases l with
      | nil => exact Or.inl ⟨r, by simpa using hl⟩
      | cons x xs =>
        simp only [List.cons_append, List.cons.injEq] at hl
        exact Or.inr ⟨xs, r, hl.2⟩

/-! ## Part 4: JSON REST API for a library (src/part-4/app.py) -/

namespace Part4

/-- Row of the `author` table: `id` primary key, `name` NOT NULL UNIQUE,
`bio` and `city` nullable, `created_at` timestamp. -/
structure Author where
  id : Nat
  name : Str
  bio : Option Str
  city : Option Str
  created_at : Nat
deriving DecidableEq

/-- Row of the `book` table: `id` primary key, `title` NOT NULL,
`author_id` NOT NULL FK to `author.id`, `year` and `isbn` nullable,
`isbn` UNIQUE, `created_at` timestamp. -/
structure Book where
  id : Nat
  title : Str
  author_id : Nat
  year : Option Int
  isbn : Option Str
  created_at : Nat
deriving DecidableEq

/-- The committed database state of `library_api.db`. -/
structure LibState where
  authors : List Author
  books : List Book
deriving DecidableEq

/-- Fresh rowid for an insert: max existing id + 1. -/
def freshId (ids : List Nat) : Nat := ids.foldr Nat.max 0 + 1

/-- `Author.to_dict()`: the JSON representation of an author.  The
`books` relationship is the list of book rows whose `author_id` is this
author's id, so `book_count` is recomputed from the book table on every
serialization; it is not a stored column. -/
structure AuthorDict where
  id : Nat
  name : Str
  bio : Option Str
  city : Option Str
  created_at : Nat
  book_count : Nat
deriving DecidableEq

/-- `Author.to_dict()` evaluated against the current committed state. -/
def authorToDict (st : LibState) (a : Author) : AuthorDict :=
  { id := a.id, name := a.name, bio := a.bio, city := a.city,
    created_at := a.created_at,
    book_count := (st.books.filter (fun b => b.author_id == a.id)).length }

/-- Query-string arguments of the list endpoints
(`sort`, `order`, `page`, `per_page`); `none` means the parameter was
absent (or, for the integer ones, failed `type=int` conversion, which
`request.args.get` also maps to the default). -/
structure ListArgs where
  sort : Option Str
  order : Option Str
  page : Option Int
  per_page : Option Int
deriving DecidableEq

/-- The JSON body of a list response. -/
structure PageResp where
  count : Nat
  total : Nat
  total_pages : Nat
  current_page : Nat
  sort : Str
  order : Str
  items : List AuthorDict
deriving DecidableEq

/-- The page of `l` selected by `paginate(page=page, per_page=pp,
error_out=False)`: 1-based slice of `pp` rows starting at row
`(page-1)*pp`. -/
def sliceOf (l : List α) (page pp : Nat) : List α :=
  (l.drop ((page - 1) * pp)).take pp

/-- `ceil(total / pp)`, the `pages` property of the pagination object
(0 when `total = 0`). -/
def pagesOf (total pp : Nat) : Nat := (total + pp - 1) / pp

/-- Clamp of the requested page done by `paginate` with
`error_out=False`: pages below 1 become 1.  Sub-1 `per_page` values are
likewise replaced by the library (no claim exercises them); both are
modelled by the same clamp. -/
def clampPos (i : Int) : Nat := if i < 1 then 1 else i.toNat

/-- Declared column names of the `Author` model. -/
def authorColNames : List Str :=
  [str "id", str "name", str "bio", str "city", str "created_at"]

/-- Names `n` with `hasattr(Author, n)`: the declared columns plus the
other class attributes (`books` relationship, methods, the class-level
SQLAlchemy machinery).  `hasattr` is what `get_authors` tests. -/
def authorAttrNames : List Str :=
  authorColNames ++ [str "books", str "to_dict", str "query", str "metadata"]

/-- Declared column names of the `Book` model. -/
def bookColNames : List Str :=
  [str "id", str "title", str "author_id", str "year", str "isbn", str "created_at"]

/-- Names `n` with `hasattr(Book, n)`. -/
def bookAttrNames : List Str :=
  bookColNames ++ [str "author_obj", str "to_dict", str "query", str "metadata"]

/-- Lexicographic strict order on strings by character code, as SQLite
compares TEXT values. -/
def strLtB : Str → Str → Bool
  | [], [] => false
  | [], _ :: _ => true
  | _ :: _, [] => false
  | a :: as, b :: bs => if a < b then true else if b < a then false else strLtB as bs

/-- Lexicographic `≤` on strings by character code. -/
def strLeB (a b : Str) : Bool := !(strLtB b a)

/-- Order on nullable strings used by `ORDER BY` (SQL NULLs sort first
ascending). -/
def optStrLe : Option Str → Option Str → Bool
  | none, _ => true
  | some _, none => false
  | some a, some b => strLeB a b

/-- Order on nullable integers used by `ORDER BY`. -/
def optIntLe : Option Int → Option Int → Bool
  | none, _ => true
  | some _, none => false
  | some a, some b => decide (a ≤ b)

/-- Comparison key for `ORDER BY <author column> ASC`. -/
def authorColLe (c : Str) (a b : Author) : Bool :=
  if c == str "name" then strLeB a.name b.name
  else if c == str "bio" then optStrLe a.bio b.bio
  else if c == str "city" then optStrLe a.city b.city
  else if c == str "created_at" then decide (a.created_at ≤ b.created_at)
  else decide (a.id ≤ b.id)

/-- Comparison key for `ORDER BY <book column> ASC`. -/
def bookColLe (c : Str) (a b : Book) : Bool :=
  if c == str "title" then strLeB a.title b.title
  else if c == str "author_id" then decide (a.author_id ≤ b.author_id)
  else if c == str "year" then optIntLe a.year b.year
  else if c == str "isbn" then optStrLe a.isbn b.isbn
  else if c == str "created_at" then decide (a.created_at ≤ b.created_at)
  else decide (a.id ≤ b.id)

/-- Apply `ORDER BY col ASC/DESC` as `get_authors`/`get_books` do:
`order.lower() == 'desc'` flips the comparison, anything else sorts
ascending. -/
def orderRows (le : α → α → Bool) (order : Str) (l : List α) : List α :=
  if lowerStr order == str "desc" then sortIn (fun x y => le y x) l
  else sortIn le l

/-- Build the list-response JSON from the pagination object. -/
def mkPage (st : LibState) (rows : List Author) (sortc order : Str)
    (page pp : Int) : PageResp :=
  let p := clampPos page
  let n := clampPos pp
  let items := sliceOf rows p n
  { count := items.length, total := rows.length,
    total_pages := pagesOf rows.length n, current_page := p,
    sort := sortc, order := order,
    items := items.map (authorToDict st) }

/-- `GET /api/authors` (`get_authors`): read `sort`/`order`/`page`/
`per_page` with defaults `'id'`/`'asc'`/1/10; if `hasattr(Author, sort)`
then `getattr` the attribute and call `.asc()`/`.desc()` on it — which
succeeds for a declared column and raises `AttributeError` for any other
attribute — else leave the query unordered; paginate and respond 200. -/
def get_authors (st : LibState) (args : ListArgs) : HRes PageResp :=
  let sortc := args.sort.getD (str "id")
  let order := args.order.getD (str "asc")
  let page := args.page.getD 1
  let pp := args.per_page.getD 10
  if authorAttrNames.contains sortc then
    if authorColNames.contains sortc then
      .resp 200 (mkPage st (orderRows (authorColLe sortc) order st.authors) sortc order page pp)
    else
      .exc
  else
    .resp 200 (mkPage st st.authors sortc order page pp)

/-- `GET /api/authors/<id>` (`get_author`). -/
def get_author (st : LibState) (id : Nat) : HRes (Option AuthorDict) :=
  match st.authors.find? (fun a => a.id == id) with
  | none => .resp 404 none
  | some a => .resp 200 (some (authorToDict st a))

/-- JSON body of `POST /api/authors`; `none` in `name` covers both an
absent key and a falsy value other than the empty string. -/
structure AuthorIn where
  name : Option Str
  bio : Option Str
  city : Option Str
deriving DecidableEq

/-- `POST /api/authors` (`create_author`): 400 when the body is missing
or `name` is falsy; 400 when an author with that exact name exists;
otherwise insert and commit, 201. -/
def create_author (st : LibState) (data : Option AuthorIn) (now : Nat) :
    HRes Unit × LibState :=
  match data with
  | none => (.resp 400 (), st)
  | some d =>
    match d.name with
    | none => (.resp 400 (), st)
    | some nm =>
      if nm.isEmpty then (.resp 400 (), st)
      else if st.authors.any (fun a => a.name == nm) then (.resp 400 (), st)
      else
        let a : Author :=
          { id := freshId (st.authors.map (·.id)), name := nm,
            bio := d.bio, city := d.city, created_at := now }
        (.resp 201 (), { st with authors := st.authors ++ [a] })

/-- JSON body of `PUT /api/authors/<id>`: outer `Option` is key
presence, inner `Option` is JSON `null` vs a string. -/
structure AuthorUp where
  name : Option (Option Str)
  bio : Option (Option Str)
  city : Option (Option Str)
deriving DecidableEq

/-- `PUT /api/authors/<id>` (`update_author`): 404 when the id is
missing, 400 when the body is missing; otherwise overwrite the provided
fields and commit.  The handler does no uniqueness or null check, so a
`name` update violating NOT NULL or UNIQUE makes the commit raise
`IntegrityError` (an escaped exception). -/
def update_author (st : LibState) (id : Nat) (data : Option AuthorUp) :
    HRes Unit × LibState :=
  match st.authors.find? (fun a => a.id == id) with
  | none => (.resp 404 (), st)
  | some a =>
    match data with
    | none => (.resp 400 (), st)
    | some d =>
      match (match d.name with | some v => v | none => some a.name) with
      | none => (.exc, st)
      | some nm =>
        if st.authors.any (fun x => x.id != id && x.name == nm) then (.exc, st)
        else
          (.resp 200 (),
            { st with authors := st.authors.map (fun x =>
                if x.id == id then
                  { x with
                    name := nm
                    bio := d.bio.getD x.bio
                    city := d.city.getD x.city }
                else x) })

/-- `DELETE /api/authors/<id>` (`delete_author`): 404 when the id is
missing; otherwise `db.session.delete(author)` with the relationship's
`cascade='all, delete-orphan'` also deletes every book row whose
`author_id` is this author, then commit. -/
def delete_author (st : LibState) (id : Nat) : HRes Unit × LibState :=
  match st.authors.find? (fun a => a.id == id) with
  | none => (.resp 404 (), st)
  | some _ =>
    (.resp 200 (),
      { authors := st.authors.filter (fun a => a.id != id),
        books := st.books.filter (fun b => b.author_id != id) })

end Part4

namespace Part4

/-- The JSON body of a book list response (items serialized via
`Book.to_dict`, whose shape the claims do not inspect; rows are kept). -/
structure BookPageResp where
  count : Nat
  total : Nat
  total_pages : Nat
  current_page : Nat
  sort : Str
  order : Str
  items : List Book
deriving DecidableEq

/-- `GET /api/books` (`get_books`): same shape as `get_authors`, over the
`Book` model. -/
def get_books (st : LibState) (args : ListArgs) : HRes BookPageResp :=
  let sortc := args.sort.getD (str "id")
  let order := args.order.getD (str "asc")
  let page := args.page.getD 1
  let pp := args.per_page.getD 10
  let paged : List Book → BookPageResp := fun rows =>
    let p := clampPos page
    let n := clampPos pp
    let items := sliceOf rows p n
    { count := items.length, total := rows.length,
      total_pages := pagesOf rows.length n, current_page := p,
      sort := sortc, order := order, items := items }
  if bookAttrNames.contains sortc then
    if bookColNames.contains sortc then
      .resp 200 (paged (orderRows (bookColLe sortc) order st.books))
    else
      .exc
  else
    .resp 200 (paged st.books)

/-- `GET /api/books/<id>` (`get_book`). -/
def get_book (st : LibState) (id : Nat) : HRes (Option Book) :=
  match st.books.find? (fun b => b.id == id) with
  | none => .resp 404 none
  | some b => .resp 200 (some b)

/-- JSON body of `POST /api/books`. -/
structure BookIn where
  title : Option Str
  author_id : Option Int
  year : Option Int
  isbn : Option Str
deriving DecidableEq

/-- `POST /api/books` (`create_book`): 400 when the body is missing or
`title` or `author_id` is falsy (absent, empty string, or the number 0);
400 when `author_id` matches no author; when a non-empty `isbn` is given
and some book already has it, 400.  Otherwise insert and commit, 201.
An empty-string `isbn` skips the handler's duplicate check (falsy) but
is still inserted, so a second empty-string `isbn` violates the UNIQUE
constraint at commit. -/
def create_book (st : LibState) (data : Option BookIn) (now : Nat) :
    HRes Unit × LibState :=
  match data with
  | none => (.resp 400 (), st)
  | some d =>
    match d.title, d.author_id with
    | none, _ => (.resp 400 (), st)
    | _, none => (.resp 400 (), st)
    | some t, some aid =>
      if t.isEmpty || aid == 0 then (.resp 400 (), st)
      else if !(st.authors.any (fun a => (a.id : Int) == aid)) then (.resp 400 (), st)
      else
        let dup := st.books.any (fun b => b.isbn == d.isbn)
        let ins : Unit → HRes Unit × LibState := fun _ =>
          let b : Book :=
            { id := freshId (st.books.map (·.id)), title := t,
              author_id := aid.toNat, year := d.year, isbn := d.isbn,
              created_at := now }
          (.resp 201 (), { st with books := st.books ++ [b] })
        match d.isbn with
        | some i =>
          if !i.isEmpty then
            if st.books.any (fun b => b.isbn == some i) then (.resp 400 (), st)
            else ins ()
          else if dup then (.exc, st) else ins ()
        | none => ins ()

/-- JSON body of `PUT /api/books/<id>`: outer `Option` is key presence. -/
structure BookUp where
  title : Option (Option Str)
  author_id : Option Int
  year : Option (Option Int)
  isbn : Option (Option Str)
deriving DecidableEq

/-- `PUT /api/books/<id>` (`update_book`): 404 when the id is missing,
400 when the body is missing; sets `title` in the session, then checks a
provided `author_id` against the author table — returning 400 *without
committing* when it is missing, so the pending title change is discarded
with the session; then sets `year` and `isbn` and commits.  A `title` of
JSON `null` or an `isbn` equal to another book's violates NOT NULL /
UNIQUE at commit (escaped `IntegrityError`). -/
def update_book (st : LibState) (id : Nat) (data : Option BookUp) :
    HRes Unit × LibState :=
  match st.books.find? (fun b => b.id == id) with
  | none => (.resp 404 (), st)
  | some b =>
    match data with
    | none => (.resp 400 (), st)
    | some d =>
      let commit : Nat → HRes Unit × LibState := fun aid =>
        match (match d.title with | some v => v | none => some b.title) with
        | none => (.exc, st)
        | some t =>
          let newIsbn := d.isbn.getD b.isbn
          match newIsbn with
          | some i =>
            if st.books.any (fun x => x.id != id && x.isbn == some i) then (.exc, st)
            else
              (.resp 200 (),
                { st with books := st.books.map (fun x =>
                    if x.id == id then
                      { x with
                        title := t
                        author_id := aid
                        year := d.year.getD x.year
                        isbn := newIsbn }
                    else x) })
          | none =>
            (.resp 200 (),
              { st with books := st.books.map (fun x =>
                  if x.id == id then
                    { x with
                      title := t
                      author_id := aid
                      year := d.year.getD x.year
                      isbn := none }
                  else x) })
      match d.author_id with
      | some aid =>
        if !(st.authors.any (fun a => (a.id : Int) == aid)) then (.resp 400 (), st)
        else commit aid.toNat
      | none => commit b.author_id

/-- `DELETE /api/books/<id>` (`delete_book`). -/
def delete_book (st : LibState) (id : Nat) : HRes Unit × LibState :=
  match st.books.find? (fun b => b.id == id) with
  | none => (.resp 404 (), st)
  | some _ =>
    (.resp 200 (), { st with books := st.books.filter (fun b => b.id != id) })

/-- `request.args.get(x)` followed by Python truthiness: an absent or
empty parameter is skipped by the `if param:` guards. -/
def optParam : Option Str → Option Str
  | none => none
  | some s => if s.isEmpty then none else some s

/-- `GET /api/books/search` (`search_books`): filter by `q` as
case-insensitive LIKE containment (`title ilike '%q%'`), then by
`author` the same way on the joined author's name, then by `year`
compared for exact equality after `int(year)` — which raises
`ValueError` (escaped exception) on a non-numeric value. -/
def search_books (st : LibState) (qa aa ya : Option Str) : HRes (List Book) :=
  let q1 :=
    match optParam qa with
    | some t => st.books.filter (fun b => strMatchCI t b.title)
    | none => st.books
  let q2 :=
    match optParam aa with
    | some an =>
      q1.filter (fun b =>
        st.authors.any (fun a => a.id == b.author_id && strMatchCI an a.name))
    | none => q1
  match optParam ya with
  | some ys =>
    match pyInt ys with
    | none => .exc
    | some y => .resp 200 (q2.filter (fun b => b.year == some y))
  | none => .resp 200 q2

/-- `GET /api/authors/search` (`search_authors`): filter by `q` on the
name and `city` on the city, both case-insensitive LIKE containment; a
NULL city matches no `city` filter (SQL `NULL ilike p` is not true). -/
def search_authors (st : LibState) (qa ca : Option Str) : HRes (List Author) :=
  let q1 :=
    match optParam qa with
    | some nm => st.authors.filter (fun a => strMatchCI nm a.name)
    | none => st.authors
  let q2 :=
    match optParam ca with
    | some c =>
      q1.filter (fun a =>
        match a.city with
        | none => false
        | some cv => strMatchCI c cv)
    | none => q1
  .resp 200 q2

/-- The state `init_db()` seeds into an empty `library_api.db`
(timestamps collapsed to 0). -/
def seeded : LibState :=
  { authors :=
      [ { id := 1, name := str "Eric Matthes", bio := some (str "Python educator"),
          city := some (str "USA"), created_at := 0 },
        { id := 2, name := str "Miguel Grinberg", bio := some (str "Flask expert"),
          city := some (str "Canada"), created_at := 0 },
        { id := 3, name := str "Robert C. Martin", bio := some (str "Clean Code author"),
          city := some (str "USA"), created_at := 0 } ],
    books :=
      [ { id := 1, title := str "Python Crash Course", author_id := 1,
          year := some 2019, isbn := some (str "978-1593279288"), created_at := 0 },
        { id := 2, title := str "Flask Web Development", author_id := 2,
          year := some 2018, isbn := some (str "978-1491991732"), created_at := 0 },
        { id := 3, title := str "Clean Code", author_id := 3,
          year := some 2008, isbn := some (str "978-0132350884"), created_at := 0 } ] }

end Part4

/-! ## Part 3: school management over Flask-SQLAlchemy (src/part-3/app.py) -/

namespace Part3

/-- Row of the `teacher` table: `email` NOT NULL UNIQUE, `course_id`
NOT NULL FK to `course.id`. -/
structure Teacher where
  id : Nat
  name : Str
  email : Str
  course_id : Nat
deriving DecidableEq

/-- Row of the `course` table. -/
structure Course where
  id : Nat
  name : Str
  description : Str
deriving DecidableEq

/-- Row of the `student` table: `email` NOT NULL UNIQUE, `course_id`
NOT NULL FK to `course.id`. -/
structure Student where
  id : Nat
  name : Str
  email : Str
  course_id : Nat
deriving DecidableEq

/-- The committed database state of `academy.db`. -/
structure AcadState where
  courses : List Course
  teachers : List Teacher
  students : List Student
deriving DecidableEq

/-- Referential invariant: every teacher and student row references an
existing course row. -/
def refOK (st : AcadState) : Bool :=
  st.teachers.all (fun t => st.courses.any (fun c => c.id == t.course_id)) &&
  st.students.all (fun s => st.courses.any (fun c => c.id == s.course_id))

/-- Fresh rowid for an insert: max existing id + 1. -/
def freshId (ids : List Nat) : Nat := ids.foldr Nat.max 0 + 1

/-- `POST /add-teacher` (`add_teacher`): builds a `Teacher` from the form
fields and commits, with no duplicate-email and no course-existence
check in the handler.  At commit SQLite enforces UNIQUE(email)
(`IntegrityError`, an escaped exception) and, only when `fkOn`, the
foreign key; the application never turns FK enforcement on, so its real
behavior is `fkOn = false`.  On success: redirect (302). -/
def add_teacher (fkOn : Bool) (st : AcadState) (name email : Str)
    (course_id : Nat) : HRes Unit × AcadState :=
  if st.teachers.any (fun t => t.email == email) then (.exc, st)
  else if fkOn && !(st.courses.any (fun c => c.id == course_id)) then (.exc, st)
  else
    (.resp 302 (),
      { st with teachers := st.teachers ++
          [{ id := freshId (st.teachers.map (·.id)), name := name,
             email := email, course_id := course_id }] })

/-- `POST /edit-teacher/<id>` (`edit_teacher`): `get_or_404`, then
overwrite all three fields from the form and commit (same constraint
behavior as `add_teacher`; the teacher's own email never conflicts with
itself). -/
def edit_teacher (fkOn : Bool) (st : AcadState) (id : Nat)
    (name email : Str) (course_id : Nat) : HRes Unit × AcadState :=
  match st.teachers.find? (fun t => t.id == id) with
  | none => (.resp 404 (), st)
  | some _ =>
    if st.teachers.any (fun t => t.id != id && t.email == email) then (.exc, st)
    else if fkOn && !(st.courses.any (fun c => c.id == course_id)) then (.exc, st)
    else
      (.resp 302 (),
        { st with teachers := st.teachers.map (fun t =>
            if t.id == id then
              { t with
                name := name
                email := email
                course_id := course_id }
            else t) })

/-- `GET /delete-teacher/<id>` (`delete_teacher`): `get_or_404`, delete,
commit, redirect. -/
def delete_teacher (st : AcadState) (id : Nat) : HRes Unit × AcadState :=
  match st.teachers.find? (fun t => t.id == id) with
  | none => (.resp 404 (), st)
  | some _ =>
    (.resp 302 (), { st with teachers := st.teachers.filter (fun t => t.id != id) })

/-- `POST /add` (`add_student`): exactly like `add_teacher`. -/
def add_student (fkOn : Bool) (st : AcadState) (name email : Str)
    (course_id : Nat) : HRes Unit × AcadState :=
  if st.students.any (fun s => s.email == email) then (.exc, st)
  else if fkOn && !(st.courses.any (fun c => c.id == course_id)) then (.exc, st)
  else
    (.resp 302 (),
      { st with students := st.students ++
          [{ id := freshId (st.students.map (·.id)), name := name,
             email := email, course_id := course_id }] })

/-- `POST /edit/<id>` (`edit_student`): exactly like `edit_teacher`. -/
def edit_student (fkOn : Bool) (st : AcadState) (id : Nat)
    (name email : Str) (course_id : Nat) : HRes Unit × AcadState :=
  match st.students.find? (fun s => s.id == id) with
  | none => (.resp 404 (), st)
  | some _ =>
    if st.students.any (fun s => s.id != id && s.email == email) then (.exc, st)
    else if fkOn && !(st.courses.any (fun c => c.id == course_id)) then (.exc, st)
    else
      (.resp 302 (),
        { st with students := st.students.map (fun s =>
            if s.id == id then
              { s with
                name := name
                email := email
                course_id := course_id }
            else s) })

/-- `GET /delete/<id>` (`delete_student`). -/
def delete_student (st : AcadState) (id : Nat) : HRes Unit × AcadState :=
  match st.students.find? (fun s => s.id == id) with
  | none => (.resp 404 (), st)
  | some _ =>
    (.resp 302 (), { st with students := st.students.filter (fun s => s.id != id) })

/-- `POST /add-course` (`add_course`): insert the new course and commit;
then look up the form's `teacher_id` and, when that teacher exists,
point its `course_id` at the new course and commit again. -/
def add_course (st : AcadState) (name description : Str) (teacher_id : Nat) :
    HRes Unit × AcadState :=
  let cid := freshId (st.courses.map (·.id))
  let st1 : AcadState := { st with courses := st.courses ++
      [{ id := cid, name := name, description := description }] }
  match st1.teachers.find? (fun t => t.id == teacher_id) with
  | none => (.resp 302 (), st1)
  | some _ =>
    (.resp 302 (),
      { st1 with teachers := st1.teachers.map (fun t =>
          if t.id == teacher_id then { t with course_id := cid } else t) })

/-- The state `init_db()` seeds into an empty `academy.db`. -/
def seeded : AcadState :=
  { courses :=
      [ { id := 1, name := str "Mathematics", description := str "Algebra & Calculus" },
        { id := 2, name := str "Physics", description := str "Mechanics & Electromagnetism" },
        { id := 3, name := str "Chemistry", description := str "Organic & Inorganic Chemistry" } ],
    teachers :=
      [ { id := 1, name := str "Dr. Sarah Wilson", email := str "sarah@academy.com", course_id := 1 },
        { id := 2, name := str "Mr. John Davis", email := str "john@academy.com", course_id := 1 },
        { id := 3, name := str "Prof. Lisa Chen", email := str "lisa@academy.com", course_id := 2 },
        { id := 4, name := str "Dr. Raj Patel", email := str "raj@academy.com", course_id := 3 } ],
    students :=
      [ { id := 1, name := str "Rahul Kumar", email := str "rahul@student.com", course_id := 1 },
        { id := 2, name := str "Priya Singh", email := str "priya@student.com", course_id := 2 } ] }

end Part3

/-! ## Part 6: product inventory (src/part-6/app.py) -/

namespace Part6

/-- Row of the `product` table: `name` NOT NULL, `quantity` integer
(default 0), `price` NOT NULL.  The Python `float` price is modelled as
an exact rational; no claim depends on floating-point rounding. -/
structure Product where
  id : Nat
  name : Str
  quantity : Int
  price : ℚ
deriving DecidableEq

/-- The committed database state of `inventory.db`.  It stores only
product rows: the totals shown on the index page have no backing
column. -/
structure InvState where
  products : List Product
deriving DecidableEq

/-- Fresh rowid for an insert: max existing id + 1. -/
def freshId (ids : List Nat) : Nat := ids.foldr Nat.max 0 + 1

/-- What `GET /` renders: the (possibly search-filtered) product rows and
the two aggregates recomputed from them on this read. -/
structure IndexPage where
  products : List Product
  total_quantity : Int
  total_value : ℚ
  search : Str
deriving DecidableEq

/-- `GET /` (`index`): a non-empty `search` parameter filters products by
case-insensitive LIKE containment on the name, otherwise all products
are listed; `total_quantity` and `total_value` are summed over exactly
the listed rows. -/
def index (st : InvState) (search : Str) : IndexPage :=
  let products :=
    if !search.isEmpty then st.products.filter (fun p => strMatchCI search p.name)
    else st.products
  { products := products,
    total_quantity := (products.map (fun p => p.quantity)).sum,
    total_value := (products.map (fun p => (p.quantity : ℚ) * p.price)).sum,
    search := search }

/-- `POST /add` (`add_product`): `int(quantity)` and `float(price)` are
applied to the raw form strings with no error handling, so a non-numeric
value raises `ValueError` (escaped exception); otherwise insert, commit,
redirect. -/
def add_product (st : InvState) (name qty price : Str) : HRes Unit × InvState :=
  match pyInt qty with
  | none => (.exc, st)
  | some q =>
    match pyFloat price with
    | none => (.exc, st)
    | some pr =>
      (.resp 302 (),
        { products := st.products ++
            [{ id := freshId (st.products.map (·.id)), name := name,
               quantity := q, price := pr }] })

/-- `POST /edit/<product_id>` (`edit_product`): `get_or_404`, then the
same unguarded `int`/`float` conversions, then overwrite and commit. -/
def edit_product (st : InvState) (id : Nat) (name qty price : Str) :
    HRes Unit × InvState :=
  match st.products.find? (fun p => p.id == id) with
  | none => (.resp 404 (), st)
  | some _ =>
    match pyInt qty with
    | none => (.exc, st)
    | some q =>
      match pyFloat price with
      | none => (.exc, st)
      | some pr =>
        (.resp 302 (),
          { products := st.products.map (fun p =>
              if p.id == id then
                { p with
                  name := name
                  quantity := q
                  price := pr }
              else p) })

/-- `GET /delete/<product_id>` (`delete_product`): `get_or_404`, delete,
commit, redirect. -/
def delete_product (st : InvState) (id : Nat) : HRes Unit × InvState :=
  match st.products.find? (fun p => p.id == id) with
  | none => (.resp 404 (), st)
  | some _ =>
    (.resp 302 (), { products := st.products.filter (fun p => p.id != id) })

end Part6

/-! ## Shared lemmas -/

/-- A `find?` by id misses when no row has the id. -/
theorem find_none_of_ids {α : Type} (f : α → Nat) (l : List α) (id : Nat)
    (h : ∀ a ∈ l, f a ≠ id) : l.find? (fun a => f a == id) = none := by
  rw [List.find?_eq_none]
  intro x hx
  simpa using h x hx

/-- The 12-author state used for the concrete pagination example
(page size 5 over 12 rows). -/
def twelveState : Part4.LibState :=
  { authors := (List.range 12).map (fun i =>
      { id := i + 1, name := str "a", bio := none, city := none, created_at := 0 }),
    books := [] }

/-! ## C6: deleting an author cascades to its books -/

/-- C6: deleting an Author deletes every Book whose `author_id`
references that author; after a successful (200) author delete the book
table is exactly the old one with that author's books removed, so no
book of that author remains, and the author row itself is gone. -/
theorem delete_author_cascades (st : Part4.LibState) (id : Nat)
    (h : (Part4.delete_author st id).1 = HRes.resp 200 ()) :
    (Part4.delete_author st id).2.books =
      st.books.filter (fun b => b.author_id != id) ∧
    (∀ b ∈ (Part4.delete_author st id).2.books, b.author_id ≠ id) ∧
    (∀ a ∈ (Part4.delete_author st id).2.authors, a.id ≠ id) := by
  unfold Part4.delete_author
  cases hf : st.authors.find? (fun a => a.id == id) with
  | none =>
    exfalso
    unfold Part4.delete_author at h
    rw [hf] at h
    simp at h
  | some a =>
    refine ⟨rfl, ?_, ?_⟩
    · intro b hb
      have := List.of_mem_filter hb
      simpa using this
    · intro x hx
      have := List.of_mem_filter hx
      simpa using this

/-- Witness for C6 at the seeded library state, deleting author 1. -/
theorem delete_author_cascades_witness :
    (Part4.delete_author Part4.seeded 1).2.books =
      Part4.seeded.books.filter (fun b => b.author_id != 1) :=
  (delete_author_cascades Part4.seeded 1 (by decide)).1

/-! ## C2: get/update/delete on a missing id yield 404 -/

/-- C2: for every get, update, or delete request whose id matches no
existing row — part-4 authors and books, part-6 products, part-3
teachers and students — the handler returns 404, and the mutating ones
leave the committed state unchanged. -/
theorem missing_id_not_found (st4 : Part4.LibState) (st6 : Part6.InvState)
    (st3 : Part3.AcadState) (id : Nat)
    (ha : ∀ a ∈ st4.authors, a.id ≠ id) (hb : ∀ b ∈ st4.books, b.id ≠ id)
    (hp : ∀ p ∈ st6.products, p.id ≠ id)
    (ht : ∀ t ∈ st3.teachers, t.id ≠ id) (hs : ∀ s ∈ st3.students, s.id ≠ id)
    (dataA : Option Part4.AuthorUp) (dataB : Option Part4.BookUp)
    (fkOn : Bool) (nm em qty price : Str) (cid : Nat) :
    (Part4.get_author st4 id).code = some 404 ∧
    Part4.update_author st4 id dataA = (HRes.resp 404 (), st4) ∧
    Part4.delete_author st4 id = (HRes.resp 404 (), st4) ∧
    (Part4.get_book st4 id).code = some 404 ∧
    Part4.update_book st4 id dataB = (HRes.resp 404 (), st4) ∧
    Part4.delete_book st4 id = (HRes.resp 404 (), st4) ∧
    Part6.edit_product st6 id nm qty price = (HRes.resp 404 (), st6) ∧
    Part6.delete_product st6 id = (HRes.resp 404 (), st6) ∧
    Part3.edit_teacher fkOn st3 id nm em cid = (HRes.resp 404 (), st3) ∧
    Part3.delete_teacher st3 id = (HRes.resp 404 (), st3) ∧
    Part3.edit_student fkOn st3 id nm em cid = (HRes.resp 404 (), st3) ∧
    Part3.delete_student st3 id = (HRes.resp 404 (), st3) := by
  have fa := find_none_of_ids (fun a => a.id) st4.authors id ha
  have fb := find_none_of_ids (fun b => b.id) st4.books id hb
  have fp := find_none_of_ids (fun p => p.id) st6.products id hp
  have ft := find_none_of_ids (fun t => t.id) st3.teachers id ht
  have fs := find_none_of_ids (fun s => s.id) st3.students id hs
  refine ⟨?_, ?_, ?_, ?_, ?_, ?_, ?_, ?_, ?_, ?_, ?_, ?_⟩ <;>
    simp only [Part4.get_author, Part4.update_author, Part4.delete_author,
      Part4.get_book, Part4.update_book, Part4.delete_book,
      Part6.edit_product, Part6.delete_product,
      Part3.edit_teacher, Part3.delete_teacher,
      Part3.edit_student, Part3.delete_student, fa, fb, fp, ft, fs] <;>
    rfl

/-- Witness for C2 on empty databases with id 1. -/
theorem missing_id_not_found_witness :
    (Part4.get_author ⟨[], []⟩ 1).code = some 404 :=
  (missing_id_not_found ⟨[], []⟩ ⟨[]⟩ ⟨[], [], []⟩ 1
    (by simp) (by simp) (by simp) (by simp) (by simp)
    none none false [] [] [] [] 1).1

/-! ## C5: the sort "allow-list" is `hasattr`, not the declared field set -/

/-- C5 (amended): the list endpoints match the `sort` parameter with
`hasattr` against *all* attributes of the model class.  A name that is
not an attribute at all falls back silently to default (unsorted) order
with a 200 response; but a name that is a non-column attribute
(`to_dict`, `query`, `metadata`, the relationship) passes the check and
then `.asc()`/`.desc()` raises `AttributeError`, an escaped exception. -/
theorem sort_hasattr_fallback (st : Part4.LibState) (args : Part4.ListArgs)
    (s : Str) (hs : args.sort = some s) :
    (Part4.authorAttrNames.contains s = false →
      (Part4.get_authors st args).code = some 200 ∧
      (Part4.get_authors st args).body.map (fun r => r.items) =
        some ((Part4.sliceOf st.authors (Part4.clampPos (args.page.getD 1))
          (Part4.clampPos (args.per_page.getD 10))).map (Part4.authorToDict st))) ∧
    (Part4.authorAttrNames.contains s = true →
     Part4.authorColNames.contains s = false →
      Part4.get_authors st args = HRes.exc) ∧
    (Part4.bookAttrNames.contains s = false →
      (Part4.get_books st args).code = some 200 ∧
      (Part4.get_books st args).body.map (fun r => r.items) =
        some (Part4.sliceOf st.books (Part4.clampPos (args.page.getD 1))
          (Part4.clampPos (args.per_page.getD 10)))) ∧
    (Part4.bookAttrNames.contains s = true →
     Part4.bookColNames.contains s = false →
      Part4.get_books st args = HRes.exc) := by
  refine ⟨fun h1 => ?_, fun h1 h2 => ?_, fun h1 => ?_, fun h1 h2 => ?_⟩
  · have hm : s ∉ Part4.authorAttrNames := by simpa using h1
    simp [Part4.get_authors, hs, hm, Part4.mkPage, HRes.code, HRes.body]
  · have hm1 : s ∈ Part4.authorAttrNames := by simpa using h1
    have hm2 : s ∉ Part4.authorColNames := by simpa using h2
    simp [Part4.get_authors, hs, hm1, hm2]
  · have hm : s ∉ Part4.bookAttrNames := by simpa using h1
    simp [Part4.get_books, hs, hm, HRes.code, HRes.body]
  · have hm1 : s ∈ Part4.bookAttrNames := by simpa using h1
    have hm2 : s ∉ Part4.bookColNames := by simpa using h2
    simp [Part4.get_books, hs, hm1, hm2]

/-- Counterexample to C5 as stated: `to_dict` is not a declared field of
`Author`, yet sorting by it does not fall back to default order — the
request dies with an escaped `AttributeError`. -/
theorem sort_hasattr_cex :
    Part4.authorColNames.contains (str "to_dict") = false ∧
    Part4.get_authors Part4.seeded ⟨some (str "to_dict"), none, none, none⟩ =
      HRes.exc := by decide

/-- Witness for C5 (amended): a name that is no attribute at all
(`bogus`) yields a 200 response. -/
theorem sort_hasattr_fallback_witness :
    (Part4.get_authors Part4.seeded ⟨some (str "bogus"), none, none, none⟩).code =
      some 200 :=
  ((sort_hasattr_fallback Part4.seeded ⟨some (str "bogus"), none, none, none⟩
    (str "bogus") rfl).1 (by decide)).1

/-! ## C9: aggregates are recomputed from current rows on every read -/

/-- C9: the inventory index page's `total_quantity` and `total_value`
are the sums of `quantity` and `quantity * price` over exactly the rows
selected by the current search filter (all rows when the search string
is empty), and `book_count` in an author's JSON representation is the
number of book rows referencing that author.  Neither aggregate has a
backing column: `InvState` and `LibState` store only rows, so the values
are recomputed on each read. -/
theorem aggregates_on_read (st : Part6.InvState) (q : Str)
    (lst : Part4.LibState) (a : Part4.Author) :
    ((Part6.index st q).products =
      if q.isEmpty then st.products
      else st.products.filter (fun p => strMatchCI q p.name)) ∧
    (Part6.index st q).total_quantity =
      ((Part6.index st q).products.map (fun p => p.quantity)).sum ∧
    (Part6.index st q).total_value =
      ((Part6.index st q).products.map (fun p => (p.quantity : ℚ) * p.price)).sum ∧
    (Part4.authorToDict lst a).book_count =
      (lst.books.filter (fun b => b.author_id == a.id)).length := by
  refine ⟨?_, rfl, rfl, rfl⟩
  cases hq : q.isEmpty <;> simp [Part6.index, hq]

/-- Witness for C9 at the seeded library and an empty inventory. -/
theorem aggregates_on_read_witness :
    (Part4.authorToDict Part4.seeded
        { id := 1, name := str "Eric Matthes", bio := none, city := none,
          created_at := 0 }).book_count =
      (Part4.seeded.books.filter (fun b => b.author_id == 1)).length :=
  (aggregates_on_read ⟨[]⟩ (str "x") Part4.seeded
    { id := 1, name := str "Eric Matthes", bio := none, city := none,
      created_at := 0 }).2.2.2

/-! ## C7: referential integrity of part-3 -/

/-- Unfolding of the referential invariant into membership form. -/
theorem refOK_iff (st : Part3.AcadState) :
    Part3.refOK st = true ↔
      (∀ t ∈ st.teachers, ∃ c ∈ st.courses, c.id = t.course_id) ∧
      (∀ s ∈ st.students, ∃ c ∈ st.courses, c.id = s.course_id) := by
  simp [Part3.refOK, List.all_eq_true, List.any_eq_true]

/-- C7 (amended): the part-3 handlers perform no application-level check
of `course_id`, so the invariant "every Teacher/Student references an
existing Course" depends entirely on the database enforcing the declared
foreign keys.  *If* FK enforcement is on, every operation of the app
(courses are never deleted) preserves the invariant. -/
theorem part3_fk_invariant (st : Part3.AcadState) (id cid tid : Nat)
    (nm em desc : Str) (h : Part3.refOK st = true) :
    Part3.refOK (Part3.add_teacher true st nm em cid).2 = true ∧
    Part3.refOK (Part3.edit_teacher true st id nm em cid).2 = true ∧
    Part3.refOK (Part3.delete_teacher st id).2 = true ∧
    Part3.refOK (Part3.add_student true st nm em cid).2 = true ∧
    Part3.refOK (Part3.edit_student true st id nm em cid).2 = true ∧
    Part3.refOK (Part3.delete_student st id).2 = true ∧
    Part3.refOK (Part3.add_course st nm desc tid).2 = true := by
  obtain ⟨h1, h2⟩ := (refOK_iff st).mp h
  refine ⟨?_, ?_, ?_, ?_, ?_, ?_, ?_⟩
  · -- add_teacher
    by_cases hdup : st.teachers.any (fun t => t.email == em) = true
    · simp [Part3.add_teacher, hdup, h]
    · have hdup' : st.teachers.any (fun t => t.email == em) = false := by
        simpa using hdup
      by_cases hfk : st.courses.any (fun c => c.id == cid) = true
      · simp only [Part3.add_teacher, hdup', hfk, Bool.true_and, Bool.not_true,
          Bool.false_eq_true, if_false]
        rw [refOK_iff]
        refine ⟨?_, h2⟩
        intro t htm
        rcases List.mem_append.mp htm with hin | hnew
        · exact h1 t hin
        · rcases List.mem_singleton.mp hnew with rfl
          simpa using List.any_eq_true.mp hfk
      · have hfk' : st.courses.any (fun c => c.id == cid) = false := by
          simpa using hfk
        simp [Part3.add_teacher, hdup', hfk', h]
  · -- edit_teacher
    cases hft : st.teachers.find? (fun t => t.id == id) with
    | none => simp [Part3.edit_teacher, hft, h]
    | some t0 =>
      by_cases hdup : st.teachers.any (fun t => t.id != id && t.email == em) = true
      · simp [Part3.edit_teacher, hft, hdup, h]
      · have hdup' : st.teachers.any (fun t => t.id != id && t.email == em) = false := by
          simpa using hdup
        by_cases hfk : st.courses.any (fun c => c.id == cid) = true
        · simp only [Part3.edit_teacher, hft, hdup', hfk, Bool.true_and,
            Bool.not_true, Bool.false_eq_true, if_false]
          rw [refOK_iff]
          refine ⟨?_, h2⟩
          intro t htm
          rcases List.mem_map.mp htm with ⟨t1, ht1, rfl⟩
          by_cases hid : (t1.id == id) = true
          · simp only [hid, if_true]
            simpa using List.any_eq_true.mp hfk
          · have : (t1.id == id) = false := by simpa using hid
            simp only [this, Bool.false_eq_true, if_false]
            exact h1 t1 ht1
        · have hfk' : st.courses.any (fun c => c.id == cid) = false := by
            simpa using hfk
          simp [Part3.edit_teacher, hft, hdup', hfk', h]
  · -- delete_teacher
    cases hft : st.teachers.find? (fun t => t.id == id) with
    | none => simp [Part3.delete_teacher, hft, h]
    | some t0 =>
      simp only [Part3.delete_teacher, hft]
      rw [refOK_iff]
      exact ⟨fun t htm => h1 t (List.mem_of_mem_filter htm), h2⟩
  · -- add_student
    by_cases hdup : st.students.any (fun s => s.email == em) = true
    · simp [Part3.add_student, hdup, h]
    · have hdup' : st.students.any (fun s => s.email == em) = false := by
        simpa using hdup
      by_cases hfk : st.courses.any (fun c => c.id == cid) = true
      · simp only [Part3.add_student, hdup', hfk, Bool.true_and, Bool.not_true,
          Bool.false_eq_true, if_false]
        rw [refOK_iff]
        refine ⟨h1, ?_⟩
        intro s htm
        rcases List.mem_append.mp htm with hin | hnew
        · exact h2 s hin
        · rcases List.mem_singleton.mp hnew with rfl
          simpa using List.any_eq_true.mp hfk
      · have hfk' : st.courses.any (fun c => c.id == cid) = false := by
          simpa using hfk
        simp [Part3.add_student, hdup', hfk', h]
  · -- edit_student
    cases hft : st.students.find? (fun s => s.id == id) with
    | none => simp [Part3.edit_student, hft, h]
    | some s0 =>
      by_cases hdup : st.students.any (fun s => s.id != id && s.email == em) = true
      · simp [Part3.edit_student, hft, hdup, h]
      · have hdup' : st.students.any (fun s => s.id != id && s.email == em) = false := by
          simpa using hdup
        by_cases hfk : st.courses.any (fun c => c.id == cid) = true
        · simp only [Part3.edit_student, hft, hdup', hfk, Bool.true_and,
            Bool.not_true, Bool.false_eq_true, if_false]
          rw [refOK_iff]
          refine ⟨h1, ?_⟩
          intro s htm
          rcases List.mem_map.mp htm with ⟨s1, hs1, rfl⟩
          by_cases hid : (s1.id == id) = true
          · simp only [hid, if_true]
            simpa using List.any_eq_true.mp hfk
          · have : (s1.id == id) = false := by simpa using hid
            simp only [this, Bool.false_eq_true, if_false]
            exact h2 s1 hs1
        · have hfk' : st.courses.any (fun c => c.id == cid) = false := by
            simpa using hfk
          simp [Part3.edit_student, hft, hdup', hfk', h]
  · -- delete_student
    cases hft : st.students.find? (fun s => s.id == id) with
    | none => simp [Part3.delete_student, hft, h]
    | some s0 =>
      simp only [Part3.delete_student, hft]
      rw [refOK_iff]
      exact ⟨h1, fun s htm => h2 s (List.mem_of_mem_filter htm)⟩
  · -- add_course
    simp only [Part3.add_course]
    cases hft : st.teachers.find? (fun t => t.id == tid) with
    | none =>
      rw [refOK_iff]
      constructor
      · intro t htm
        obtain ⟨c, hc, hcid⟩ := h1 t htm
        exact ⟨c, List.mem_append_left _ hc, hcid⟩
      · intro s hsm
        obtain ⟨c, hc, hcid⟩ := h2 s hsm
        exact ⟨c, List.mem_append_left _ hc, hcid⟩
    | some t0 =>
      rw [refOK_iff]
      constructor
      · intro t htm
        rcases List.mem_map.mp htm with ⟨t1, ht1, rfl⟩
        by_cases hid : (t1.id == tid) = true
        · simp only [hid, if_true]
          refine ⟨_, List.mem_append_right _ (List.mem_singleton.mpr rfl), rfl⟩
        · have : (t1.id == tid) = false := by simpa using hid
          simp only [this, Bool.false_eq_true, if_false]
          obtain ⟨c, hc, hcid⟩ := h1 t1 ht1
          exact ⟨c, List.mem_append_left _ hc, hcid⟩
      · intro s hsm
        obtain ⟨c, hc, hcid⟩ := h2 s hsm
        exact ⟨c, List.mem_append_left _ hc, hcid⟩

/-- Counterexample to C7 as stated: with SQLite's default of not
enforcing foreign keys (the app never turns them on), `add_teacher`
succeeds (redirect) on the seeded state with `course_id = 99`, leaving a
teacher row that references no course. -/
theorem part3_fk_cex :
    Part3.refOK Part3.seeded = true ∧
    (Part3.add_teacher false Part3.seeded (str "Eve") (str "eve@uni.com") 99).1 =
      HRes.resp 302 () ∧
    Part3.refOK
      (Part3.add_teacher false Part3.seeded (str "Eve") (str "eve@uni.com") 99).2 =
      false := by decide

/-- Witness for C7 (amended) at the seeded state. -/
theorem part3_fk_invariant_witness :
    Part3.refOK
      (Part3.add_teacher true Part3.seeded (str "New") (str "new@academy.com") 1).2 =
      true :=
  (part3_fk_invariant Part3.seeded 1 1 1 (str "New") (str "new@academy.com")
    (str "D") (by decide)).1

/-! ## C1: duplicate unique values on create -/

/-- C1 (amended): in part-4, creating an author whose exact name exists,
or a book whose non-empty isbn exists, is rejected with 400 and the
state is unchanged.  In part-3, `add_teacher`/`add_student` do not check
the unique email in the handler: the commit violates the UNIQUE
constraint and the `IntegrityError` escapes (a 500-class failure, not a
400 rejection); no new row is committed either way. -/
theorem dup_unique_create (st4 : Part4.LibState) (d : Part4.AuthorIn)
    (bd : Part4.BookIn) (nm isbn : Str) (now : Nat)
    (st3 : Part3.AcadState) (tn te sn se : Str) (cid cid2 : Nat)
    (fkOn fkOn2 : Bool)
    (hnm : d.name = some nm)
    (hdupA : st4.authors.any (fun a => a.name == nm) = true)
    (hisbn : bd.isbn = some isbn) (hne : isbn.isEmpty = false)
    (hdupB : st4.books.any (fun b => b.isbn == some isbn) = true)
    (hdupT : st3.teachers.any (fun t => t.email == te) = true)
    (hdupS : st3.students.any (fun s => s.email == se) = true) :
    Part4.create_author st4 (some d) now = (HRes.resp 400 (), st4) ∧
    Part4.create_book st4 (some bd) now = (HRes.resp 400 (), st4) ∧
    Part3.add_teacher fkOn st3 tn te cid = (HRes.exc, st3) ∧
    Part3.add_student fkOn2 st3 sn se cid2 = (HRes.exc, st3) := by
  refine ⟨?_, ?_, ?_, ?_⟩
  · by_cases he : nm.isEmpty = true
    · simp [Part4.create_author, hnm, he]
    · have he' : nm.isEmpty = false := by simpa using he
      simp [Part4.create_author, hnm, he', hdupA]
  · cases ht : bd.title with
    | none => simp [Part4.create_book, ht]
    | some t =>
      cases haid : bd.author_id with
      | none => simp [Part4.create_book, ht, haid]
      | some aid =>
        by_cases hfal : (t.isEmpty || aid == 0) = true
        · simp [Part4.create_book, ht, haid, hfal]
        · have hfal' : (t.isEmpty || aid == 0) = false := by simpa using hfal
          by_cases hex : st4.authors.any (fun a => (a.id : Int) == aid) = true
          · simp [Part4.create_book, ht, haid, hfal', hex, hisbn, hne, hdupB]
          · have hex' : st4.authors.any (fun a => (a.id : Int) == aid) = false := by
              simpa using hex
            simp [Part4.create_book, ht, haid, hfal', hex']
  · simp [Part3.add_teacher, hdupT]
  · simp [Part3.add_student, hdupS]

/-- Counterexample to C1 as stated: in part-3, adding a teacher with the
already-used email `sarah@academy.com` is *not* rejected with a
400-class error — the handler never checks, the commit's IntegrityError
escapes — though indeed no new row is committed. -/
theorem dup_unique_create_cex :
    is400 (Part3.add_teacher false Part3.seeded (str "Dup")
      (str "sarah@academy.com") 1).1 = false ∧
    (Part3.add_teacher false Part3.seeded (str "Dup")
      (str "sarah@academy.com") 1).2 = Part3.seeded := by decide

/-- Witness for C1 (amended): duplicate author name at the seeded state. -/
theorem dup_unique_create_witness :
    Part4.create_author Part4.seeded
      (some { name := some (str "Eric Matthes"), bio := none, city := none }) 0 =
      (HRes.resp 400 (), Part4.seeded) :=
  (dup_unique_create Part4.seeded
    { name := some (str "Eric Matthes"), bio := none, city := none }
    { title := some (str "T"), author_id := some 1, year := none,
      isbn := some (str "978-1593279288") }
    (str "Eric Matthes") (str "978-1593279288") 0 Part3.seeded
    (str "T1") (str "sarah@academy.com") (str "S1") (str "rahul@student.com")
    1 1 false false rfl (by decide) rfl (by decide) (by decide) (by decide)
    (by decide)).1

/-! ## C8: which errors are handled locally -/

/-- C8 (amended): missing-required-field, duplicate-unique (part-4),
entity-not-found and missing-body errors are handled in the handler and
surfaced as 400/404 responses; but a malformed numeric parameter — a
non-numeric `year` in book search, or a non-numeric `quantity`/`price`
in the inventory forms — raises `ValueError` with no local handling, and
the exception escapes the handler (the framework turns it into a 500). -/
theorem malformed_numeric_unhandled (st4 : Part4.LibState)
    (qa aa ya ya2 : Option Str) (ys ys2 : Str) (st6 : Part6.InvState)
    (p0 : Part6.Product) (nm qty price qty2 price2 : Str) (id now : Nat)
    (v y : Int)
    (hy : Part4.optParam ya = some ys) (hyp : pyInt ys = none)
    (hq : pyInt qty = none)
    (hq2 : pyInt qty2 = some v) (hp2 : pyFloat price2 = none)
    (hfind : st6.products.find? (fun p => p.id == id) = some p0)
    (hy2 : Part4.optParam ya2 = some ys2) (hyp2 : pyInt ys2 = some y) :
    Part4.search_books st4 qa aa ya = HRes.exc ∧
    Part6.add_product st6 nm qty price = (HRes.exc, st6) ∧
    Part6.add_product st6 nm qty2 price2 = (HRes.exc, st6) ∧
    Part6.edit_product st6 id nm qty price = (HRes.exc, st6) ∧
    (Part4.search_books st4 qa aa ya2).code = some 200 ∧
    Part4.create_author st4 none now = (HRes.resp 400 (), st4) := by
  refine ⟨?_, ?_, ?_, ?_, ?_, rfl⟩
  · simp [Part4.search_books, hy, hyp]
  · simp [Part6.add_product, hq]
  · simp [Part6.add_product, hq2, hp2]
  · simp [Part6.edit_product, hfind, hq]
  · simp [Part4.search_books, hy2, hyp2, HRes.code]

/-- Counterexample to C8 as stated: a non-numeric `year` in
`/api/books/search` and a non-numeric `quantity` in the inventory add
form are not handled locally — the exception escapes the handler. -/
theorem malformed_numeric_cex :
    Part4.search_books Part4.seeded none none (some (str "abc")) = HRes.exc ∧
    (Part6.add_product ⟨[]⟩ (str "Widget") (str "two") (str "1")).1 = HRes.exc :=
  ⟨by decide, by rfl⟩

/-- Witness for C8 (amended) at concrete malformed inputs. -/
theorem malformed_numeric_unhandled_witness :
    Part4.search_books Part4.seeded none none (some (str "nineteen")) = HRes.exc :=
  (malformed_numeric_unhandled Part4.seeded none none (some (str "nineteen"))
    (some (str "2019")) (str "nineteen") (str "2019") ⟨[⟨1, str "P", 2, 3⟩]⟩
    ⟨1, str "P", 2, 3⟩ (str "N") (str "x") (str "1") (str "3") (str "oops")
    1 0 3 2019 rfl (by rfl) (by rfl) (by rfl) (by rfl) (by rfl) rfl
    (by rfl)).1

/-! ## C3: pagination -/

/-- `orderRows` is a permutation in particular in length. -/
theorem orderRows_length (le : α → α → Bool) (order : Str) (l : List α) :
    (Part4.orderRows le order l).length = l.length := by
  unfold Part4.orderRows
  split <;> simp [sortIn_length]

/-- The response of the concrete 12-row pagination example: page 3 at
page size 5, default sort. -/
def twelvePage : Part4.PageResp :=
  { count := 2, total := 12, total_pages := 3, current_page := 3,
    sort := str "id", order := str "asc",
    items := [ { id := 11, name := str "a", bio := none, city := none,
                 created_at := 0, book_count := 0 },
               { id := 12, name := str "a", bio := none, city := none,
                 created_at := 0, book_count := 0 } ] }

/-- C3: list pagination is 1-based with defaults page 1 / page size 10
(`request.args.get` defaults), and every 200 list response carries the
full row count (`total`) and the page count `ceil(total/per_page)`
(`total_pages`) alongside the page's items; concretely, page 3 at page
size 5 over 12 rows reports 3 total pages and carries exactly 2 items. -/
theorem pagination_spec (st : Part4.LibState) (args : Part4.ListArgs)
    (r : Part4.PageResp) (h : Part4.get_authors st args = HRes.resp 200 r) :
    Part4.get_authors st { args with page := none, per_page := none } =
      Part4.get_authors st { args with page := some 1, per_page := some 10 } ∧
    r.total = st.authors.length ∧
    r.total_pages =
      Part4.pagesOf st.authors.length (Part4.clampPos (args.per_page.getD 10)) ∧
    r.current_page = Part4.clampPos (args.page.getD 1) ∧
    r.count = r.items.length ∧
    (Part4.get_authors twelveState ⟨none, none, some 3, some 5⟩).body.map
      (fun p => (p.total, p.total_pages, p.current_page, p.items.length)) =
      some (12, 3, 3, 2) := by
  have hmain : r.total = st.authors.length ∧
      r.total_pages =
        Part4.pagesOf st.authors.length (Part4.clampPos (args.per_page.getD 10)) ∧
      r.current_page = Part4.clampPos (args.page.getD 1) ∧
      r.count = r.items.length := by
    simp only [Part4.get_authors] at h
    split at h
    · split at h
      · simp only [HRes.resp.injEq] at h
        obtain ⟨-, hr⟩ := h
        subst hr
        simp [Part4.mkPage, orderRows_length]
      · simp at h
    · simp only [HRes.resp.injEq] at h
      obtain ⟨-, hr⟩ := h
      subst hr
      simp [Part4.mkPage]
  exact ⟨rfl, hmain.1, hmain.2.1, hmain.2.2.1, hmain.2.2.2, by decide⟩

/-- Witness for C3 at the 12-row state, page 3, page size 5. -/
theorem pagination_spec_witness :
    (Part4.get_authors twelveState ⟨none, none, some 3, some 5⟩).body.map
      (fun p => (p.total, p.total_pages, p.current_page, p.items.length)) =
      some (12, 3, 3, 2) :=
  (pagination_spec twelveState ⟨none, none, some 3, some 5⟩ twelvePage
    (by decide)).2.2.2.2.2

/-! ## C10: error responses commit nothing -/

/-- C10: whenever a part-4 mutating handler answers with a 400 or 404
response, no commit happened during the request, so the committed
database state after the request is the state before it (the read-only
handlers take no state to begin with). -/
theorem error_no_commit (st st2 : Part4.LibState) (id now : Nat)
    (dA : Option Part4.AuthorIn) (uA : Option Part4.AuthorUp)
    (dB : Option Part4.BookIn) (uB : Option Part4.BookUp) (s : Nat)
    (hs : s = 400 ∨ s = 404) :
    (Part4.create_author st dA now = (HRes.resp s (), st2) → st2 = st) ∧
    (Part4.update_author st id uA = (HRes.resp s (), st2) → st2 = st) ∧
    (Part4.delete_author st id = (HRes.resp s (), st2) → st2 = st) ∧
    (Part4.create_book st dB now = (HRes.resp s (), st2) → st2 = st) ∧
    (Part4.update_book st id uB = (HRes.resp s (), st2) → st2 = st) ∧
    (Part4.delete_book st id = (HRes.resp s (), st2) → st2 = st) := by
  rcases hs with rfl | rfl <;>
    refine ⟨?_, ?_, ?_, ?_, ?_, ?_⟩ <;>
    intro h <;>
    simp only [Part4.create_author.eq_def, Part4.update_author.eq_def,
      Part4.delete_author.eq_def, Part4.create_book.eq_def,
      Part4.update_book.eq_def, Part4.delete_book.eq_def] at h
  all_goals repeat' (split at h)
  all_goals simp_all

/-- Witness for C10: a 404 delete on an empty library commits nothing —
the handler's result is `(404, unchanged state)`, so the concluded state
equality holds at that concrete input. -/
theorem error_no_commit_witness :
    (Part4.delete_author ⟨[], []⟩ 1).2 = (⟨[], []⟩ : Part4.LibState) :=
  (error_no_commit ⟨[], []⟩ (Part4.delete_author ⟨[], []⟩ 1).2 1 0 none none none
    none 404 (Or.inr rfl)).2.2.1 (by decide)

/-! ## C4: search = AND of case-insensitive LIKE / exact filters -/

/-- A `%` at the head of a LIKE pattern matches an arbitrary prefix of
the string. -/
theorem likeMatch_pct_iff (ps s : Str) :
    likeMatch ('%' :: ps) s = true ↔
      ∃ pre suf, s = pre ++ suf ∧ likeMatch ps suf = true := by
  have h0 : likeMatch ('%' :: ps) s = (s.tails).any (fun t => likeMatch ps t) := by
    simp [likeMatch]
  rw [h0, List.any_eq_true]
  constructor
  · rintro ⟨t, hmem, ht⟩
    obtain ⟨pre, hpre⟩ := (List.mem_tails t s).mp hmem
    exact ⟨pre, t, hpre.symm, ht⟩
  · rintro ⟨pre, suf, hs, h⟩
    exact ⟨suf, (List.mem_tails suf s).mpr ⟨pre, hs.symm⟩, h⟩

/-- The pattern `%` alone matches every string. -/
theorem likeMatch_pct_nil (s : Str) : likeMatch (['%'] : Str) s = true := by
  rw [show (['%'] : Str) = '%' :: [] from rfl, likeMatch_pct_iff]
  exact ⟨s, [], by simp, rfl⟩

/-- A metacharacter-free segment of a LIKE pattern matches itself
literally. -/
theorem likeMatch_lit (p : Str) : ∀ lit : Str, noMeta lit = true → ∀ s,
    likeMatch (lit ++ p) s = true ↔
      ∃ s2, s = lit ++ s2 ∧ likeMatch p s2 = true := by
  intro lit
  induction lit with
  | nil => intro _ s; simp
  | cons c cs ih =>
    intro hm s
    have hm' : ((c != '%' && c != '_') && noMeta cs) = true := hm
    rw [Bool.and_eq_true, Bool.and_eq_true] at hm'
    obtain ⟨⟨hc1, hc2⟩, hcs⟩ := hm'
    have hc1' : ¬ (c = '%') := by simpa using hc1
    have hc2' : ¬ (c = '_') := by simpa using hc2
    cases s with
    | nil => simp [likeMatch, hc1']
    | cons x s2 =>
      have h0 : likeMatch ((c :: cs) ++ p) (x :: s2) =
          ((c == x) && likeMatch (cs ++ p) s2) := by
        simp [likeMatch, hc1', hc2']
      rw [h0, Bool.and_eq_true, beq_iff_eq, ih hcs]
      constructor
      · rintro ⟨rfl, s3, rfl, h⟩
        exact ⟨s3, rfl, h⟩
      · rintro ⟨s3, hx, h⟩
        obtain ⟨rfl, rfl⟩ : x = c ∧ s2 = cs ++ s3 := by simpa using hx
        exact ⟨rfl, s3, rfl, h⟩

/-- When the search parameter contains no LIKE metacharacter, the
`ilike '%pat%'` filter coincides with the spec's "case-insensitive
substring match". -/
theorem strMatchCI_eq_substrCI (pat s : Str)
    (hm : noMeta (lowerStr pat) = true) :
    strMatchCI pat s = substrCI pat s := by
  have hIff : strMatchCI pat s = true ↔ substrCI pat s = true := by
    rw [strMatchCI, substrCI, likeMatch_pct_iff, strSub_iff]
    constructor
    · rintro ⟨pre, suf, hs, h⟩
      rw [likeMatch_lit ['%'] (lowerStr pat) hm suf] at h
      obtain ⟨s2, rfl, -⟩ := h
      exact ⟨pre, s2, by rw [hs, List.append_assoc]⟩
    · rintro ⟨l, r, hlr⟩
      refine ⟨l, lowerStr pat ++ r, by rw [hlr, List.append_assoc], ?_⟩
      rw [likeMatch_lit ['%'] (lowerStr pat) hm]
      exact ⟨r, rfl, likeMatch_pct_nil r⟩
  cases h1 : strMatchCI pat s <;> cases h2 : substrCI pat s <;> simp_all

/-- One author with one book titled `abc`, for the wildcard
counterexample. -/
def likeCexState : Part4.LibState :=
  { authors := [ { id := 1, name := str "A", bio := none, city := none,
                   created_at := 0 } ],
    books := [ { id := 1, title := str "abc", author_id := 1, year := none,
                 isbn := none, created_at := 0 } ] }

/-- The city filter's SQL semantics in membership form. -/
theorem cityMatch_iff (c : Str) (o : Option Str) :
    (match o with | none => false | some cv => strMatchCI c cv) = true ↔
      ∃ cv, o = some cv ∧ strMatchCI c cv = true := by
  cases o <;> simp

/-- C4 (amended): a 200 search response contains exactly the rows
satisfying the conjunction of the provided filters — `q`/`author`/`city`
as case-insensitive LIKE containment (`strMatchCI`, i.e. `%param%` with
the LIKE metacharacters `%`/`_` inside the parameter acting as
wildcards), and `year` as exact numeric equality; absent filters
constrain nothing.  For a parameter free of LIKE metacharacters the
filter coincides with the spec's case-insensitive substring match.
Concretely, `q=crash` over the seeded books returns exactly the book
titled "Python Crash Course". -/
theorem search_filters (st : Part4.LibState) (qa aa ya ca : Option Str)
    (bs : List Part4.Book) (as2 : List Part4.Author)
    (hb : Part4.search_books st qa aa ya = HRes.resp 200 bs)
    (ha : Part4.search_authors st qa ca = HRes.resp 200 as2) :
    (∀ b, b ∈ bs ↔ b ∈ st.books ∧
      (∀ t, Part4.optParam qa = some t → strMatchCI t b.title = true) ∧
      (∀ an, Part4.optParam aa = some an →
        ∃ a, a ∈ st.authors ∧ a.id = b.author_id ∧ strMatchCI an a.name = true) ∧
      (∀ ys, Part4.optParam ya = some ys →
        ∃ y, pyInt ys = some y ∧ b.year = some y)) ∧
    (∀ a, a ∈ as2 ↔ a ∈ st.authors ∧
      (∀ t, Part4.optParam qa = some t → strMatchCI t a.name = true) ∧
      (∀ c, Part4.optParam ca = some c →
        ∃ cv, a.city = some cv ∧ strMatchCI c cv = true)) ∧
    (∀ pat s2, noMeta (lowerStr pat) = true →
      (strMatchCI pat s2 = true ↔
        ∃ l r, lowerStr s2 = l ++ lowerStr pat ++ r)) ∧
    (Part4.search_books Part4.seeded (some (str "crash")) none none).body.map
      (fun l => l.map (fun b => b.id)) = some [1] := by
  refine ⟨?_, ?_, fun pat s2 hm => ?_, by decide⟩
  case refine_3 =>
    rw [strMatchCI_eq_substrCI pat s2 hm]
    exact strSub_iff (lowerStr pat) (lowerStr s2)
  · intro b
    simp only [Part4.search_books] at hb
    cases hya : Part4.optParam ya with
    | none =>
      rw [hya] at hb
      simp only [HRes.resp.injEq, true_and] at hb
      subst hb
      cases hqa : Part4.optParam qa <;> cases haa : Part4.optParam aa <;>
        simp [List.mem_filter, List.any_eq_true, hqa, haa, hya, and_assoc] <;>
        try tauto
    | some ys =>
      simp only [hya] at hb
      cases hpy : pyInt ys with
      | none => simp only [hpy] at hb; simp at hb
      | some y =>
        simp only [hpy, HRes.resp.injEq, true_and] at hb
        subst hb
        cases hqa : Part4.optParam qa <;> cases haa : Part4.optParam aa <;>
          simp [List.mem_filter, List.any_eq_true, hqa, haa, hya, hpy, and_assoc] <;>
          try tauto
  · intro a
    simp only [Part4.search_authors] at ha
    cases hca : Part4.optParam ca with
    | none =>
      rw [hca] at ha
      simp only [HRes.resp.injEq, true_and] at ha
      subst ha
      cases hqa : Part4.optParam qa <;>
        simp [List.mem_filter, hqa, hca, and_assoc] <;>
        try tauto
    | some c =>
      rw [hca] at ha
      simp only [HRes.resp.injEq, true_and] at ha
      subst ha
      cases hqa : Part4.optParam qa <;>
        simp [List.mem_filter, hqa, hca, cityMatch_iff, and_assoc] <;>
        try tauto

/-- Counterexample to C4 as stated: the parameter `a_c` is interpolated
unescaped into `ilike '%a_c%'`, where `_` is a single-character
wildcard, so the search returns the book titled `abc` — a row that does
not contain `a_c` as a (case-insensitive) substring.  The claimed
"every matching row and no others" under substring matching is false of
the code. -/
theorem search_filters_cex :
    substrCI (str "a_c") (str "abc") = false ∧
    (Part4.search_books likeCexState (some (str "a_c")) none none).body.map
      (fun l => l.map (fun b => b.title)) = some [str "abc"] := by decide

/-- Witness for C4 (amended): `q=crash` over the seeded library. -/
theorem search_filters_witness :
    (Part4.search_books Part4.seeded (some (str "crash")) none none).body.map
      (fun l => l.map (fun b => b.id)) = some [1] :=
  (search_filters Part4.seeded (some (str "crash")) none none none
    [{ id := 1, title := str "Python Crash Course", author_id := 1,
       year := some 2019, isbn := some (str "978-1593279288"), created_at := 0 }]
    [] (by decide) (by decide)).2.2.2
